import Mathlib

/-!
Verification of the governance CLI transaction builders in
`x/gov/client/cli/tx.go` (module `cli` of the kratos repository).

The file is a thin glue layer: each cobra command parses its arguments and
flags, resolves a human-readable account identifier to a chain address with
one `txutil.QueryAccountAuth` call, builds a typed message, runs the message
structural validation `ValidateBasic`, defaults the fee payer, and hands off
to `txutil.GenerateOrBroadcastMsgs`.

We embed each command `RunE` body as a pure Lean function from the command
arguments, the flag values and an environment of external oracles (coin
parsing, account-id parsing, the account-auth query, message validation,
proposal-file reading) to an outcome paired with an effect trace.  The trace
records, in order, the account-auth queries that were issued and the messages
that were constructed, so that fail-fast properties (no network interaction,
no message construction) are statements about the trace.
-/

namespace KratosGovCli

/-- A chain account identifier (`chainTypes.AccountID`), kept as the string
the framework renders it as; the commands only pass it around and print it
with a `%s` format verb. -/
structure AccountID where
  str : String
deriving DecidableEq, Repr

/-- A resolved chain auth address (`types.AccAddress`); only passed around
here, so a plain carrier suffices. -/
abbrev Address := String

/-- A parsed coin amount (`chainTypes.Coins`); only passed around here, so a
plain carrier suffices. -/
abbrev Coins := String

/-- The proposal content built by `types.ContentFromProposalType` from the
title, description and proposal-type strings.  At this layer it is a pure
data carrier that the CLI file only constructs and embeds in the message. -/
structure Content where
  title : String
  description : String
  proposalType : String
deriving DecidableEq, Repr

/-- The canonical enumerated vote options named by the command help text:
yes/no/no_with_veto/abstain. -/
inductive VoteOption where
  | yes
  | abstain
  | no
  | noWithVeto
deriving DecidableEq, Repr

/-- The four message kinds the file constructs:
`types.NewKuMsgSubmitProposal`, `types.NewKuMsgDeposit`, `types.NewKuMsgVote`
and `types.NewMsgGovUnjail`, with the exact arguments the source passes. -/
inductive Msg where
  | submitProposal (authAddr : Address) (content : Content)
      (initialDeposit : Coins) (proposer : AccountID)
  | deposit (authAddr : Address) (depositor : AccountID)
      (proposalID : Nat) (amount : Coins)
  | vote (authAddr : Address) (voter : AccountID)
      (proposalID : Nat) (option : VoteOption)
  | govUnjail (authAddr : Address) (validator : AccountID)
deriving DecidableEq, Repr

/-- The transaction builder, restricted to the one piece of state this file
touches: the fee payer (`txBldr.FeePayer()` / `txBldr.WithPayer`). -/
structure TxBuilder where
  payer : Option String
deriving DecidableEq, Repr

/-- `txBldr.FeePayer().Empty()`: no explicit fee payer is set. -/
def TxBuilder.feePayerEmpty (b : TxBuilder) : Bool :=
  b.payer.isNone

/-- `txBldr.WithPayer(p)`. -/
def TxBuilder.withPayer (b : TxBuilder) (p : String) : TxBuilder :=
  { b with payer := some p }

/-- The `proposal` struct of `tx.go`: title, description, type tag and
deposit amount string. -/
structure ProposalDraft where
  Title : String
  Description : String
  TypeTag : String
  Deposit : String
deriving DecidableEq, Repr

/-- The five proposal flags registered on the submit-proposal command:
`--title`, `--description`, `--type`, `--deposit` and `--proposal` (the JSON
file path).  `none` means the flag was not supplied on the command line. -/
structure SubmitFlags where
  title : Option String
  description : Option String
  proposalType : Option String
  deposit : Option String
  proposalFile : Option String
deriving DecidableEq, Repr

/-- `true` when any of the four discrete proposal flags listed in the
`ProposalFlags` slice of `tx.go` (title, description, type, deposit) was
supplied. -/
def hasDiscreteProposalFlag (fl : SubmitFlags) : Bool :=
  fl.title.isSome || fl.description.isSome ||
    fl.proposalType.isSome || fl.deposit.isSome

/-- The external oracles the command bodies call into.  All of them live in
the surrounding framework or in modules outside this file; the CLI layer
only propagates their results. -/
structure Env where
  /-- `chainTypes.ParseCoins`. -/
  parseCoins : String → Except String Coins
  /-- `chainTypes.NewAccountIDFromStr`. -/
  newAccountIDFromStr : String → Except String AccountID
  /-- `txutil.QueryAccountAuth`: the account-resolution network query. -/
  queryAccountAuth : AccountID → Except String Address
  /-- `msg.ValidateBasic()`: `none` means the message is valid, `some e`
  is the validation error. -/
  validateBasic : Msg → Option String
  /-- Reading and unmarshalling the proposal JSON file named by the
  `--proposal` flag. -/
  parseProposalFile : String → Except String ProposalDraft

/-- `sdkerrors.Wrap err m` / `sdkerrors.Wrapf`: the wrapping message
prefixes the wrapped error. -/
def wrap (e m : String) : String :=
  m ++ ": " ++ e

/-- Effect trace of one command invocation: the account-auth queries issued
and the messages constructed, in program order. -/
structure Trace where
  queries : List AccountID
  msgs : List Msg
deriving DecidableEq, Repr

/-- The empty trace: no network interaction, no message constructed. -/
def Trace.empty : Trace :=
  ⟨[], []⟩

/-- The result a command `RunE` body hands back to cobra: either an error,
or the final call `txutil.GenerateOrBroadcastMsgs(cliCtx, txBldr, msgs)`
together with the `FromAccount` set on the context. -/
inductive Outcome where
  | err (e : String)
  | broadcast (bldr : TxBuilder) (msgs : List Msg) (fromAccount : AccountID)
deriving DecidableEq, Repr

/-- The numeric value of a list of decimal digit characters. -/
def digitsToNat (l : List Char) : Nat :=
  l.foldl (fun acc c => acc * 10 + (c.toNat - 48)) 0

/-- `strconv.ParseUint(s, 10, 64)` of the Go standard library, reduced to
what the callers observe: success exactly on a nonempty all-digit string
whose value fits in 64 bits (base 10 given explicitly, so no sign, no base
prefix and no underscores are accepted), and the parsed value on success. -/
def parseUint64 (s : String) : Option Nat :=
  let l := s.toList
  if l.isEmpty then none
  else if l.all Char.isDigit then
    let n := digitsToNat l
    if n < 18446744073709551616 then some n else none
  else none

/-- The error the conflict check described below returns. -/
def proposalFlagsConflictErr : String :=
  "proposal title, description, type or deposit flag provided alongside the proposal file flag"

/-- Modelled from the spec: `parseSubmitProposalFlags` lives in a file of
this repository that is not part of the sources (only its caller in `tx.go`
and the `ProposalFlags` slice it checks are).  Per the spec, a proposal may
be specified either via the discrete flags (title/description/type/deposit)
or via a single JSON file path, never both; violating this fails fast with a
descriptive error, before anything else the command does.  With no file
flag, the draft is assembled from the discrete flag values (absent flags
keep their empty-string defaults). -/
def parseSubmitProposalFlags (env : Env) (fl : SubmitFlags) :
    Except String ProposalDraft :=
  match fl.proposalFile with
  | some path =>
    if hasDiscreteProposalFlag fl then
      .error proposalFlagsConflictErr
    else
      env.parseProposalFile path
  | none =>
    .ok ⟨fl.title.getD "", fl.description.getD "",
      fl.proposalType.getD "", fl.deposit.getD ""⟩

/-- Modelled from the spec: `govutils.NormalizeVoteOption` lives outside the
sources; per the spec it performs case/synonym normalization of the option
string before the mapping to the canonical option, and passes unrecognized
strings through unchanged. -/
def NormalizeVoteOption (s : String) : String :=
  match s with
  | "Yes" | "yes" => "Yes"
  | "Abstain" | "abstain" => "Abstain"
  | "No" | "no" => "No"
  | "NoWithVeto" | "no_with_veto" => "NoWithVeto"
  | other => other

/-- Modelled from the spec: `types.VoteOptionFromString` lives outside the
sources; it maps the canonical option names to the enumerated option and
fails on every other string. -/
def VoteOptionFromString (s : String) : Except String VoteOption :=
  match s with
  | "Yes" => .ok .yes
  | "Abstain" => .ok .abstain
  | "No" => .ok .no
  | "NoWithVeto" => .ok .noWithVeto
  | other => .error (other ++ " is not a valid vote option")

/-- The `RunE` body of `submit-proposal [proposer]` (`GetCmdSubmitProposal`):
parse the proposal flags, parse the deposit coins, parse the proposer
account id, build the content, query the proposer auth, build and validate
the message, default the fee payer to `args[0]` when unset, broadcast. -/
def runSubmitProposal (env : Env) (txBldr : TxBuilder) (fl : SubmitFlags)
    (a0 : String) : Outcome × Trace :=
  match parseSubmitProposalFlags env fl with
  | .error e => (.err e, Trace.empty)
  | .ok prop =>
    match env.parseCoins prop.Deposit with
    | .error e => (.err e, Trace.empty)
    | .ok amount =>
      match env.newAccountIDFromStr a0 with
      | .error e => (.err (wrap e "proposer account id error"), Trace.empty)
      | .ok proposerAccount =>
        match env.queryAccountAuth proposerAccount with
        | .error e =>
          (.err (wrap e ("query account " ++ proposerAccount.str ++ " auth error")),
            ⟨[proposerAccount], []⟩)
        | .ok proposalAccAddress =>
          let msg := Msg.submitProposal proposalAccAddress
            ⟨prop.Title, prop.Description, prop.TypeTag⟩ amount proposerAccount
          match env.validateBasic msg with
          | some e => (.err e, ⟨[proposerAccount], [msg]⟩)
          | none =>
            (.broadcast
              (if txBldr.feePayerEmpty then txBldr.withPayer a0 else txBldr)
              [msg] proposerAccount,
              ⟨[proposerAccount], [msg]⟩)

/-- The `RunE` body of `deposit [depositor] [proposal-id] [deposit]`
(`GetCmdDeposit`): parse the proposal id as a uint64, parse the coins, parse
the depositor account id, query the depositor auth, build and validate the
message, default the fee payer to `args[0]` when unset, broadcast. -/
def runDeposit (env : Env) (txBldr : TxBuilder) (a0 a1 a2 : String) :
    Outcome × Trace :=
  match parseUint64 a1 with
  | none =>
    (.err ("proposal-id " ++ a1 ++ " not a valid uint, please input a valid proposal-id"),
      Trace.empty)
  | some proposalID =>
    match env.parseCoins a2 with
    | .error e => (.err e, Trace.empty)
    | .ok amount =>
      match env.newAccountIDFromStr a0 with
      | .error e => (.err (wrap e "depositor account id error"), Trace.empty)
      | .ok depositorAccount =>
        match env.queryAccountAuth depositorAccount with
        | .error e =>
          (.err (wrap e ("query account " ++ depositorAccount.str ++ " auth error")),
            ⟨[depositorAccount], []⟩)
        | .ok depositorAccAddress =>
          let msg := Msg.deposit depositorAccAddress depositorAccount
            proposalID amount
          match env.validateBasic msg with
          | some e => (.err e, ⟨[depositorAccount], [msg]⟩)
          | none =>
            (.broadcast
              (if txBldr.feePayerEmpty then txBldr.withPayer a0 else txBldr)
              [msg] depositorAccount,
              ⟨[depositorAccount], [msg]⟩)

/-- The `RunE` body of `vote [voter-account] [proposal-id] [option]`
(`GetCmdVote`): parse the proposal id as a uint64, normalize and map the
vote option, parse the voter account id (wrapping a parse failure with the
literal label `depositor account id error` as the source does), query the
voter auth, build and validate the message, default the fee payer to
`args[0]` when unset, broadcast. -/
def runVote (env : Env) (txBldr : TxBuilder) (a0 a1 a2 : String) :
    Outcome × Trace :=
  match parseUint64 a1 with
  | none =>
    (.err ("proposal-id " ++ a1 ++ " not a valid int, please input a valid proposal-id"),
      Trace.empty)
  | some proposalID =>
    match VoteOptionFromString (NormalizeVoteOption a2) with
    | .error e => (.err e, Trace.empty)
    | .ok byteVoteOption =>
      match env.newAccountIDFromStr a0 with
      | .error e => (.err (wrap e "depositor account id error"), Trace.empty)
      | .ok voterAccount =>
        match env.queryAccountAuth voterAccount with
        | .error e =>
          (.err (wrap e ("query account " ++ voterAccount.str ++ " auth error")),
            ⟨[voterAccount], []⟩)
        | .ok voterAccAddress =>
          let msg := Msg.vote voterAccAddress voterAccount proposalID
            byteVoteOption
          match env.validateBasic msg with
          | some e => (.err e, ⟨[voterAccount], [msg]⟩)
          | none =>
            (.broadcast
              (if txBldr.feePayerEmpty then txBldr.withPayer a0 else txBldr)
              [msg] voterAccount,
              ⟨[voterAccount], [msg]⟩)

/-- The `RunE` body of `unjail [validator-account]` (`GetCmdUnJail`): parse
the validator account id (wrapping a parse failure with the literal label
`depositor account id error` as the source does), query the validator auth,
build and validate the message, default the fee payer to `args[0]` when
unset, broadcast. -/
def runUnJail (env : Env) (txBldr : TxBuilder) (a0 : String) :
    Outcome × Trace :=
  match env.newAccountIDFromStr a0 with
  | .error e => (.err (wrap e "depositor account id error"), Trace.empty)
  | .ok validatorAccount =>
    match env.queryAccountAuth validatorAccount with
    | .error e =>
      (.err (wrap e ("query account " ++ validatorAccount.str ++ " auth error")),
        ⟨[validatorAccount], []⟩)
    | .ok validatorAccAddress =>
      let msg := Msg.govUnjail validatorAccAddress validatorAccount
      match env.validateBasic msg with
      | some e => (.err e, ⟨[validatorAccount], [msg]⟩)
      | none =>
        (.broadcast
          (if txBldr.feePayerEmpty then txBldr.withPayer a0 else txBldr)
          [msg] validatorAccount,
          ⟨[validatorAccount], [msg]⟩)

/-! ## The command surface built by GetTxCmd -/

/-- What this file fixes about one cobra command: its `Use` line and the
exact positional-argument count its `Args: cobra.ExactArgs(n)` validator
enforces. -/
structure CmdSpec where
  use : String
  exactArgs : Nat
deriving DecidableEq, Repr

/-- The `deposit` command descriptor (`GetCmdDeposit`). -/
def depositSpec : CmdSpec :=
  ⟨"deposit [depositor] [proposal-id] [deposit]", 3⟩

/-- The `vote` command descriptor (`GetCmdVote`). -/
def voteSpec : CmdSpec :=
  ⟨"vote [voter-account] [proposal-id] [option]", 3⟩

/-- The `unjail` command descriptor (`GetCmdUnJail`). -/
def unjailSpec : CmdSpec :=
  ⟨"unjail [validator-account]", 1⟩

/-- The `submit-proposal` command descriptor (`GetCmdSubmitProposal`). -/
def submitProposalSpec : CmdSpec :=
  ⟨"submit-proposal [proposer]", 1⟩

/-- The parent governance transaction command group assembled by `GetTxCmd`:
its subcommands and the extra proposal child commands `pcmds` that are
mounted under the `submit-proposal` subcommand, not under the parent. -/
structure GovTxCmd where
  short : String
  subcommands : List CmdSpec
  submitProposalChildren : List CmdSpec
deriving DecidableEq, Repr

/-- `GetTxCmd`: the parent group with the four subcommands added in source
order; the `pcmds` are attached below `submit-proposal`. -/
def getTxCmd (pcmds : List CmdSpec) : GovTxCmd :=
  ⟨"Governance transactions subcommands",
    [depositSpec, voteSpec, unjailSpec, submitProposalSpec],
    pcmds⟩

/-- Cobra error for an `ExactArgs(n)` violation. -/
def exactArgsErr (want got : Nat) : String :=
  "accepts " ++ toString want ++ " arg(s), received " ++ toString got

/-- The `submit-proposal` command as cobra dispatches it: the
`ExactArgs(1)` validator runs before `RunE`, so a wrong argument count
fails with an empty effect trace. -/
def execSubmitProposal (env : Env) (txBldr : TxBuilder) (fl : SubmitFlags)
    (args : List String) : Outcome × Trace :=
  match args with
  | [a0] => runSubmitProposal env txBldr fl a0
  | _ => (.err (exactArgsErr 1 args.length), Trace.empty)

/-- The `deposit` command as cobra dispatches it: the `ExactArgs(3)`
validator runs before `RunE`. -/
def execDeposit (env : Env) (txBldr : TxBuilder) (args : List String) :
    Outcome × Trace :=
  match args with
  | [a0, a1, a2] => runDeposit env txBldr a0 a1 a2
  | _ => (.err (exactArgsErr 3 args.length), Trace.empty)

/-- The `vote` command as cobra dispatches it: the `ExactArgs(3)` validator
runs before `RunE`. -/
def execVote (env : Env) (txBldr : TxBuilder) (args : List String) :
    Outcome × Trace :=
  match args with
  | [a0, a1, a2] => runVote env txBldr a0 a1 a2
  | _ => (.err (exactArgsErr 3 args.length), Trace.empty)

/-- The `unjail` command as cobra dispatches it: the `ExactArgs(1)`
validator runs before `RunE`. -/
def execUnJail (env : Env) (txBldr : TxBuilder) (args : List String) :
    Outcome × Trace :=
  match args with
  | [a0] => runUnJail env txBldr a0
  | _ => (.err (exactArgsErr 1 args.length), Trace.empty)

/-! ## Concrete environments and inputs used by the witnesses -/

/-- A transaction builder with no fee payer set. -/
def bldr0 : TxBuilder := ⟨none⟩

/-- A transaction builder whose fee payer is already set. -/
def bldrAlice : TxBuilder := ⟨some "alice"⟩

/-- An environment where every oracle succeeds: coins parse to themselves,
nonempty account strings parse, the auth query resolves account `a` to the
address `addr-a`, and every message validates. -/
def envOk : Env where
  parseCoins := fun s => .ok s
  newAccountIDFromStr := fun s =>
    if s = "" then .error "empty account id" else .ok ⟨s⟩
  queryAccountAuth := fun a => .ok ("addr-" ++ a.str)
  validateBasic := fun _ => none
  parseProposalFile := fun _ => .ok ⟨"Test Proposal", "My awesome proposal", "Text", "10test"⟩

/-- Like `envOk` but the account-auth query fails. -/
def envQueryFail : Env :=
  { envOk with queryAccountAuth := fun a => .error ("account " ++ a.str ++ " not exists") }

/-- Like `envOk` but every message fails its structural validation. -/
def envValidateFail : Env :=
  { envOk with validateBasic := fun _ => some "invalid message" }

/-- Submit-proposal flag values: a proposal file together with a discrete
title flag. -/
def flagsConflict : SubmitFlags :=
  ⟨some "Test Proposal", none, none, none, some "path/to/proposal.json"⟩

/-- Submit-proposal flag values: only the four discrete flags. -/
def flagsDiscrete : SubmitFlags :=
  ⟨some "Test Proposal", some "My awesome proposal", some "Text", some "10test", none⟩

/-- `true` when the character list `s` starts with the character list
`pat`. -/
def charsStartWith : List Char → List Char → Bool
  | _, [] => true
  | [], _ :: _ => false
  | a :: as, b :: bs => a = b && charsStartWith as bs

/-- `true` when `pat` occurs as a contiguous run somewhere in `s`. -/
def charsContain : List Char → List Char → Bool
  | [], pat => pat.isEmpty
  | s@(_ :: rest), pat => charsStartWith s pat || charsContain rest pat

/-- `true` when `pat` occurs as a substring of `s`. -/
def strContains (s pat : String) : Bool :=
  charsContain s.toList pat.toList

/-! ## Claims -/

/-- C1: for the submit-proposal command, supplying the proposal file flag
together with any of the four discrete proposal flags (title, description,
type, deposit) makes the command fail fast with a descriptive error and an
empty effect trace, so in particular before the account-resolution query is
issued. -/
theorem C1_submit_proposal_file_flag_exclusive (env : Env) (bldr : TxBuilder)
    (fl : SubmitFlags) (a0 : String)
    (hfile : fl.proposalFile.isSome = true)
    (hflag : hasDiscreteProposalFlag fl = true) :
    runSubmitProposal env bldr fl a0 =
      (.err proposalFlagsConflictErr, Trace.empty) := by
  obtain ⟨p, hp⟩ := Option.isSome_iff_exists.mp hfile
  simp [runSubmitProposal, parseSubmitProposalFlags, hp, hflag]

/-- Witness for C1: the concrete flag set holding both a proposal file path
and a title flag is rejected with the conflict error and no effect. -/
theorem C1_submit_proposal_file_flag_exclusive_witness :
    flagsConflict.proposalFile.isSome = true ∧
    hasDiscreteProposalFlag flagsConflict = true ∧
    runSubmitProposal envOk bldr0 flagsConflict "jack" =
      (.err proposalFlagsConflictErr, Trace.empty) :=
  ⟨by decide, by decide,
    C1_submit_proposal_file_flag_exclusive envOk bldr0 flagsConflict "jack"
      (by decide) (by decide)⟩

/-- C2: in the deposit and vote commands the proposal-id argument is parsed
with `strconv.ParseUint(·, 10, 64)`; on any string that is not a valid
unsigned 64-bit decimal integer both commands return immediately a
descriptive error that names the offending argument, with an empty effect
trace, so no message is ever constructed. -/
theorem C2_proposal_id_parse_error (env : Env) (bldr : TxBuilder)
    (a0 a1 a2 : String) (h : parseUint64 a1 = none) :
    runDeposit env bldr a0 a1 a2 =
      (.err ("proposal-id " ++ a1 ++ " not a valid uint, please input a valid proposal-id"),
        Trace.empty) ∧
    runVote env bldr a0 a1 a2 =
      (.err ("proposal-id " ++ a1 ++ " not a valid int, please input a valid proposal-id"),
        Trace.empty) := by
  constructor
  · simp [runDeposit, h]
  · simp [runVote, h]

/-- Witness for C2 at the malformed proposal-id string abc. -/
theorem C2_proposal_id_parse_error_witness :
    parseUint64 "abc" = none ∧
    runDeposit envOk bldr0 "jack" "abc" "10stake" =
      (.err "proposal-id abc not a valid uint, please input a valid proposal-id",
        Trace.empty) ∧
    runVote envOk bldr0 "jack" "abc" "yes" =
      (.err "proposal-id abc not a valid int, please input a valid proposal-id",
        Trace.empty) :=
  ⟨by decide,
    (C2_proposal_id_parse_error envOk bldr0 "jack" "abc" "10stake" (by decide)).1,
    (C2_proposal_id_parse_error envOk bldr0 "jack" "abc" "yes" (by decide)).2⟩

/-- C3: in the vote command the option argument is first normalized and then
mapped to the canonical enumerated option; on any string whose normalization
is not recognized, the command returns the mapping error with an empty
effect trace, so no vote message is constructed and no account-resolution
query or broadcast occurs. -/
theorem C3_vote_option_unrecognized (env : Env) (bldr : TxBuilder)
    (a0 a1 a2 : String) (pid : Nat) (e : String)
    (hpid : parseUint64 a1 = some pid)
    (hopt : VoteOptionFromString (NormalizeVoteOption a2) = .error e) :
    runVote env bldr a0 a1 a2 = (.err e, Trace.empty) := by
  simp [runVote, hpid, hopt]

/-- Witness for C3 at the unrecognized option string maybe. -/
theorem C3_vote_option_unrecognized_witness :
    VoteOptionFromString (NormalizeVoteOption "maybe") =
      .error "maybe is not a valid vote option" ∧
    runVote envOk bldr0 "jack" "1" "maybe" =
      (.err "maybe is not a valid vote option", Trace.empty) :=
  ⟨rfl,
    C3_vote_option_unrecognized envOk bldr0 "jack" "1" "maybe" 1
      "maybe is not a valid vote option" (by decide) rfl⟩

/-- C4: each of the four commands resolves its account identifier through
exactly one account-auth query issued before the message is constructed:
whenever the query succeeds, the trace holds exactly one query for the
parsed account followed by the one constructed message; whenever the query
fails, the command aborts with an error that wraps the query failure and
names the account, having issued that single query and constructed no
message. -/
theorem C4_single_account_resolution_query (env : Env) :
    (∀ bldr fl a0 prop amount acct addr,
        parseSubmitProposalFlags env fl = .ok prop →
        env.parseCoins prop.Deposit = .ok amount →
        env.newAccountIDFromStr a0 = .ok acct →
        env.queryAccountAuth acct = .ok addr →
        (runSubmitProposal env bldr fl a0).2 =
          ⟨[acct], [Msg.submitProposal addr
            ⟨prop.Title, prop.Description, prop.TypeTag⟩ amount acct]⟩) ∧
    (∀ bldr fl a0 prop amount acct e,
        parseSubmitProposalFlags env fl = .ok prop →
        env.parseCoins prop.Deposit = .ok amount →
        env.newAccountIDFromStr a0 = .ok acct →
        env.queryAccountAuth acct = .error e →
        runSubmitProposal env bldr fl a0 =
          (.err (wrap e ("query account " ++ acct.str ++ " auth error")),
            ⟨[acct], []⟩)) ∧
    (∀ bldr a0 a1 a2 pid amount acct addr,
        parseUint64 a1 = some pid →
        env.parseCoins a2 = .ok amount →
        env.newAccountIDFromStr a0 = .ok acct →
        env.queryAccountAuth acct = .ok addr →
        (runDeposit env bldr a0 a1 a2).2 =
          ⟨[acct], [Msg.deposit addr acct pid amount]⟩) ∧
    (∀ bldr a0 a1 a2 pid amount acct e,
        parseUint64 a1 = some pid →
        env.parseCoins a2 = .ok amount →
        env.newAccountIDFromStr a0 = .ok acct →
        env.queryAccountAuth acct = .error e →
        runDeposit env bldr a0 a1 a2 =
          (.err (wrap e ("query account " ++ acct.str ++ " auth error")),
            ⟨[acct], []⟩)) ∧
    (∀ bldr a0 a1 a2 pid opt acct addr,
        parseUint64 a1 = some pid →
        VoteOptionFromString (NormalizeVoteOption a2) = .ok opt →
        env.newAccountIDFromStr a0 = .ok acct →
        env.queryAccountAuth acct = .ok addr →
        (runVote env bldr a0 a1 a2).2 =
          ⟨[acct], [Msg.vote addr acct pid opt]⟩) ∧
    (∀ bldr a0 a1 a2 pid opt acct e,
        parseUint64 a1 = some pid →
        VoteOptionFromString (NormalizeVoteOption a2) = .ok opt →
        env.newAccountIDFromStr a0 = .ok acct →
        env.queryAccountAuth acct = .error e →
        runVote env bldr a0 a1 a2 =
          (.err (wrap e ("query account " ++ acct.str ++ " auth error")),
            ⟨[acct], []⟩)) ∧
    (∀ bldr a0 acct addr,
        env.newAccountIDFromStr a0 = .ok acct →
        env.queryAccountAuth acct = .ok addr →
        (runUnJail env bldr a0).2 = ⟨[acct], [Msg.govUnjail addr acct]⟩) ∧
    (∀ bldr a0 acct e,
        env.newAccountIDFromStr a0 = .ok acct →
        env.queryAccountAuth acct = .error e →
        runUnJail env bldr a0 =
          (.err (wrap e ("query account " ++ acct.str ++ " auth error")),
            ⟨[acct], []⟩)) := by
  refine ⟨?_, ?_, ?_, ?_, ?_, ?_, ?_, ?_⟩
  · intro bldr fl a0 prop amount acct addr hp hc ha hq
    rcases hv : env.validateBasic (Msg.submitProposal addr
        ⟨prop.Title, prop.Description, prop.TypeTag⟩ amount acct) with _ | e <;>
      simp [runSubmitProposal, hp, hc, ha, hq, hv]
  · intro bldr fl a0 prop amount acct e hp hc ha hq
    simp [runSubmitProposal, hp, hc, ha, hq]
  · intro bldr a0 a1 a2 pid amount acct addr hu hc ha hq
    rcases hv : env.validateBasic (Msg.deposit addr acct pid amount) with _ | e <;>
      simp [runDeposit, hu, hc, ha, hq, hv]
  · intro bldr a0 a1 a2 pid amount acct e hu hc ha hq
    simp [runDeposit, hu, hc, ha, hq]
  · intro bldr a0 a1 a2 pid opt acct addr hu ho ha hq
    rcases hv : env.validateBasic (Msg.vote addr acct pid opt) with _ | e <;>
      simp [runVote, hu, ho, ha, hq, hv]
  · intro bldr a0 a1 a2 pid opt acct e hu ho ha hq
    simp [runVote, hu, ho, ha, hq]
  · intro bldr a0 acct addr ha hq
    rcases hv : env.validateBasic (Msg.govUnjail addr acct) with _ | e <;>
      simp [runUnJail, ha, hq, hv]
  · intro bldr a0 acct e ha hq
    simp [runUnJail, ha, hq]

/-- Witness for C4: a successful deposit invocation issues exactly the one
query for jack and then constructs the one message, and an unjail invocation
whose query fails aborts with the wrapped error naming jack, after that one
query and with no message constructed. -/
theorem C4_single_account_resolution_query_witness :
    (runDeposit envOk bldr0 "jack" "1" "10stake").2 =
      ⟨[⟨"jack"⟩], [Msg.deposit "addr-jack" ⟨"jack"⟩ 1 "10stake"]⟩ ∧
    runUnJail envQueryFail bldr0 "jack" =
      (.err "query account jack auth error: account jack not exists",
        ⟨[⟨"jack"⟩], []⟩) :=
  ⟨(C4_single_account_resolution_query envOk).2.2.1 bldr0 "jack" "1" "10stake"
      1 "10stake" ⟨"jack"⟩ "addr-jack" (by decide) rfl rfl rfl,
    (C4_single_account_resolution_query envQueryFail).2.2.2.2.2.2.2 bldr0
      "jack" ⟨"jack"⟩ "account jack not exists" rfl rfl⟩

/-- C5: in every command, a message is handed to the broadcast routine only
after passing its own structural validation: whenever a command outcome is a
broadcast, every broadcast message satisfies `ValidateBasic`; and whenever
the constructed message fails `ValidateBasic`, the command returns exactly
that validation error, so `GenerateOrBroadcastMsgs` is never called. -/
theorem C5_validate_basic_before_broadcast (env : Env) :
    (∀ bldr fl a0 b ms acct,
        (runSubmitProposal env bldr fl a0).1 = .broadcast b ms acct →
        ∀ m ∈ ms, env.validateBasic m = none) ∧
    (∀ bldr fl a0 m e,
        (runSubmitProposal env bldr fl a0).2.msgs = [m] →
        env.validateBasic m = some e →
        (runSubmitProposal env bldr fl a0).1 = .err e) ∧
    (∀ bldr a0 a1 a2 b ms acct,
        (runDeposit env bldr a0 a1 a2).1 = .broadcast b ms acct →
        ∀ m ∈ ms, env.validateBasic m = none) ∧
    (∀ bldr a0 a1 a2 m e,
        (runDeposit env bldr a0 a1 a2).2.msgs = [m] →
        env.validateBasic m = some e →
        (runDeposit env bldr a0 a1 a2).1 = .err e) ∧
    (∀ bldr a0 a1 a2 b ms acct,
        (runVote env bldr a0 a1 a2).1 = .broadcast b ms acct →
        ∀ m ∈ ms, env.validateBasic m = none) ∧
    (∀ bldr a0 a1 a2 m e,
        (runVote env bldr a0 a1 a2).2.msgs = [m] →
        env.validateBasic m = some e →
        (runVote env bldr a0 a1 a2).1 = .err e) ∧
    (∀ bldr a0 b ms acct,
        (runUnJail env bldr a0).1 = .broadcast b ms acct →
        ∀ m ∈ ms, env.validateBasic m = none) ∧
    (∀ bldr a0 m e,
        (runUnJail env bldr a0).2.msgs = [m] →
        env.validateBasic m = some e →
        (runUnJail env bldr a0).1 = .err e) := by
  refine ⟨?_, ?_, ?_, ?_, ?_, ?_, ?_, ?_⟩
  · intro bldr fl a0 b ms acct h m hm
    rcases hp : parseSubmitProposalFlags env fl with e | prop
    · simp [runSubmitProposal, hp] at h
    rcases hc : env.parseCoins prop.Deposit with e | amount
    · simp [runSubmitProposal, hp, hc] at h
    rcases ha : env.newAccountIDFromStr a0 with e | acct2
    · simp [runSubmitProposal, hp, hc, ha] at h
    rcases hq : env.queryAccountAuth acct2 with e | addr
    · simp [runSubmitProposal, hp, hc, ha, hq] at h
    rcases hv : env.validateBasic (Msg.submitProposal addr
        ⟨prop.Title, prop.Description, prop.TypeTag⟩ amount acct2) with _ | e
    · simp [runSubmitProposal, hp, hc, ha, hq, hv] at h
      obtain ⟨rfl, rfl, rfl⟩ := h
      simp at hm
      subst hm
      exact hv
    · simp [runSubmitProposal, hp, hc, ha, hq, hv] at h
  · intro bldr fl a0 m e hm hv
    rcases hp : parseSubmitProposalFlags env fl with e0 | prop
    · simp [runSubmitProposal, hp, Trace.empty] at hm
    rcases hc : env.parseCoins prop.Deposit with e0 | amount
    · simp [runSubmitProposal, hp, hc, Trace.empty] at hm
    rcases ha : env.newAccountIDFromStr a0 with e0 | acct
    · simp [runSubmitProposal, hp, hc, ha, Trace.empty] at hm
    rcases hq : env.queryAccountAuth acct with e0 | addr
    · simp [runSubmitProposal, hp, hc, ha, hq] at hm
    rcases hvv : env.validateBasic (Msg.submitProposal addr
        ⟨prop.Title, prop.Description, prop.TypeTag⟩ amount acct) with _ | e0
    · simp [runSubmitProposal, hp, hc, ha, hq, hvv] at hm
      subst hm
      simp [hvv] at hv
    · simp [runSubmitProposal, hp, hc, ha, hq, hvv] at hm ⊢
      subst hm
      rw [hvv] at hv
      exact Option.some_inj.mp hv
  · intro bldr a0 a1 a2 b ms acct h m hm
    rcases hu : parseUint64 a1 with _ | pid
    · simp [runDeposit, hu] at h
    rcases hc : env.parseCoins a2 with e | amount
    · simp [runDeposit, hu, hc] at h
    rcases ha : env.newAccountIDFromStr a0 with e | acct2
    · simp [runDeposit, hu, hc, ha] at h
    rcases hq : env.queryAccountAuth acct2 with e | addr
    · simp [runDeposit, hu, hc, ha, hq] at h
    rcases hv : env.validateBasic (Msg.deposit addr acct2 pid amount) with _ | e
    · simp [runDeposit, hu, hc, ha, hq, hv] at h
      obtain ⟨rfl, rfl, rfl⟩ := h
      simp at hm
      subst hm
      exact hv
    · simp [runDeposit, hu, hc, ha, hq, hv] at h
  · intro bldr a0 a1 a2 m e hm hv
    rcases hu : parseUint64 a1 with _ | pid
    · simp [runDeposit, hu, Trace.empty] at hm
    rcases hc : env.parseCoins a2 with e0 | amount
    · simp [runDeposit, hu, hc, Trace.empty] at hm
    rcases ha : env.newAccountIDFromStr a0 with e0 | acct
    · simp [runDeposit, hu, hc, ha, Trace.empty] at hm
    rcases hq : env.queryAccountAuth acct with e0 | addr
    · simp [runDeposit, hu, hc, ha, hq] at hm
    rcases hvv : env.validateBasic (Msg.deposit addr acct pid amount) with _ | e0
    · simp [runDeposit, hu, hc, ha, hq, hvv] at hm
      subst hm
      simp [hvv] at hv
    · simp [runDeposit, hu, hc, ha, hq, hvv] at hm ⊢
      subst hm
      rw [hvv] at hv
      exact Option.some_inj.mp hv
  · intro bldr a0 a1 a2 b ms acct h m hm
    rcases hu : parseUint64 a1 with _ | pid
    · simp [runVote, hu] at h
    rcases ho : VoteOptionFromString (NormalizeVoteOption a2) with e | opt
    · simp [runVote, hu, ho] at h
    rcases ha : env.newAccountIDFromStr a0 with e | acct2
    · simp [runVote, hu, ho, ha] at h
    rcases hq : env.queryAccountAuth acct2 with e | addr
    · simp [runVote, hu, ho, ha, hq] at h
    rcases hv : env.validateBasic (Msg.vote addr acct2 pid opt) with _ | e
    · simp [runVote, hu, ho, ha, hq, hv] at h
      obtain ⟨rfl, rfl, rfl⟩ := h
      simp at hm
      subst hm
      exact hv
    · simp [runVote, hu, ho, ha, hq, hv] at h
  · intro bldr a0 a1 a2 m e hm hv
    rcases hu : parseUint64 a1 with _ | pid
    · simp [runVote, hu, Trace.empty] at hm
    rcases ho : VoteOptionFromString (NormalizeVoteOption a2) with e0 | opt
    · simp [runVote, hu, ho, Trace.empty] at hm
    rcases ha : env.newAccountIDFromStr a0 with e0 | acct
    · simp [runVote, hu, ho, ha, Trace.empty] at hm
    rcases hq : env.queryAccountAuth acct with e0 | addr
    · simp [runVote, hu, ho, ha, hq] at hm
    rcases hvv : env.validateBasic (Msg.vote addr acct pid opt) with _ | e0
    · simp [runVote, hu, ho, ha, hq, hvv] at hm
      subst hm
      simp [hvv] at hv
    · simp [runVote, hu, ho, ha, hq, hvv] at hm ⊢
      subst hm
      rw [hvv] at hv
      exact Option.some_inj.mp hv
  · intro bldr a0 b ms acct h m hm
    rcases ha : env.newAccountIDFromStr a0 with e | acct2
    · simp [runUnJail, ha] at h
    rcases hq : env.queryAccountAuth acct2 with e | addr
    · simp [runUnJail, ha, hq] at h
    rcases hv : env.validateBasic (Msg.govUnjail addr acct2) with _ | e
    · simp [runUnJail, ha, hq, hv] at h
      obtain ⟨rfl, rfl, rfl⟩ := h
      simp at hm
      subst hm
      exact hv
    · simp [runUnJail, ha, hq, hv] at h
  · intro bldr a0 m e hm hv
    rcases ha : env.newAccountIDFromStr a0 with e0 | acct
    · simp [runUnJail, ha, Trace.empty] at hm
    rcases hq : env.queryAccountAuth acct with e0 | addr
    · simp [runUnJail, ha, hq] at hm
    rcases hvv : env.validateBasic (Msg.govUnjail addr acct) with _ | e0
    · simp [runUnJail, ha, hq, hvv] at hm
      subst hm
      simp [hvv] at hv
    · simp [runUnJail, ha, hq, hvv] at hm ⊢
      subst hm
      rw [hvv] at hv
      exact Option.some_inj.mp hv

/-- Witness for C5: the message of a broadcasting vote invocation satisfies
its validation, and an unjail invocation whose message fails validation
returns exactly the validation error. -/
theorem C5_validate_basic_before_broadcast_witness :
    envOk.validateBasic (Msg.vote "addr-jack" ⟨"jack"⟩ 1 .yes) = none ∧
    (runUnJail envValidateFail bldr0 "jack").1 = .err "invalid message" :=
  ⟨(C5_validate_basic_before_broadcast envOk).2.2.2.2.1 bldr0 "jack" "1" "yes"
      ⟨some "jack"⟩ [Msg.vote "addr-jack" ⟨"jack"⟩ 1 .yes] ⟨"jack"⟩ rfl
      (Msg.vote "addr-jack" ⟨"jack"⟩ 1 .yes) (by simp),
    (C5_validate_basic_before_broadcast envValidateFail).2.2.2.2.2.2.2 bldr0
      "jack" (Msg.govUnjail "addr-jack" ⟨"jack"⟩) "invalid message" rfl rfl⟩

/-- C6: in every command, at the point of dispatch the fee payer is
defaulted: if the transaction builder has no explicit fee payer, the
builder handed to broadcast carries the first positional argument as payer;
if a fee payer is already set, it is left unchanged. -/
theorem C6_fee_payer_defaulting (env : Env) :
    (∀ bldr fl a0 b ms acct,
        (runSubmitProposal env bldr fl a0).1 = .broadcast b ms acct →
        (bldr.payer = none → b.payer = some a0) ∧
        (∀ p, bldr.payer = some p → b.payer = some p)) ∧
    (∀ bldr a0 a1 a2 b ms acct,
        (runDeposit env bldr a0 a1 a2).1 = .broadcast b ms acct →
        (bldr.payer = none → b.payer = some a0) ∧
        (∀ p, bldr.payer = some p → b.payer = some p)) ∧
    (∀ bldr a0 a1 a2 b ms acct,
        (runVote env bldr a0 a1 a2).1 = .broadcast b ms acct →
        (bldr.payer = none → b.payer = some a0) ∧
        (∀ p, bldr.payer = some p → b.payer = some p)) ∧
    (∀ bldr a0 b ms acct,
        (runUnJail env bldr a0).1 = .broadcast b ms acct →
        (bldr.payer = none → b.payer = some a0) ∧
        (∀ p, bldr.payer = some p → b.payer = some p)) := by
  refine ⟨?_, ?_, ?_, ?_⟩
  · intro bldr fl a0 b ms acct h
    rcases hp : parseSubmitProposalFlags env fl with e | prop
    · simp [runSubmitProposal, hp] at h
    rcases hc : env.parseCoins prop.Deposit with e | amount
    · simp [runSubmitProposal, hp, hc] at h
    rcases ha : env.newAccountIDFromStr a0 with e | acct2
    · simp [runSubmitProposal, hp, hc, ha] at h
    rcases hq : env.queryAccountAuth acct2 with e | addr
    · simp [runSubmitProposal, hp, hc, ha, hq] at h
    rcases hv : env.validateBasic (Msg.submitProposal addr
        ⟨prop.Title, prop.Description, prop.TypeTag⟩ amount acct2) with _ | e
    · simp [runSubmitProposal, hp, hc, ha, hq, hv] at h
      obtain ⟨rfl, rfl, rfl⟩ := h
      constructor
      · intro hpay
        simp [TxBuilder.feePayerEmpty, hpay, TxBuilder.withPayer]
      · intro p hpay
        simp [TxBuilder.feePayerEmpty, hpay, TxBuilder.withPayer]
    · simp [runSubmitProposal, hp, hc, ha, hq, hv] at h
  · intro bldr a0 a1 a2 b ms acct h
    rcases hu : parseUint64 a1 with _ | pid
    · simp [runDeposit, hu] at h
    rcases hc : env.parseCoins a2 with e | amount
    · simp [runDeposit, hu, hc] at h
    rcases ha : env.newAccountIDFromStr a0 with e | acct2
    · simp [runDeposit, hu, hc, ha] at h
    rcases hq : env.queryAccountAuth acct2 with e | addr
    · simp [runDeposit, hu, hc, ha, hq] at h
    rcases hv : env.validateBasic (Msg.deposit addr acct2 pid amount) with _ | e
    · simp [runDeposit, hu, hc, ha, hq, hv] at h
      obtain ⟨rfl, rfl, rfl⟩ := h
      constructor
      · intro hpay
        simp [TxBuilder.feePayerEmpty, hpay, TxBuilder.withPayer]
      · intro p hpay
        simp [TxBuilder.feePayerEmpty, hpay, TxBuilder.withPayer]
    · simp [runDeposit, hu, hc, ha, hq, hv] at h
  · intro bldr a0 a1 a2 b ms acct h
    rcases hu : parseUint64 a1 with _ | pid
    · simp [runVote, hu] at h
    rcases ho : VoteOptionFromString (NormalizeVoteOption a2) with e | opt
    · simp [runVote, hu, ho] at h
    rcases ha : env.newAccountIDFromStr a0 with e | acct2
    · simp [runVote, hu, ho, ha] at h
    rcases hq : env.queryAccountAuth acct2 with e | addr
    · simp [runVote, hu, ho, ha, hq] at h
    rcases hv : env.validateBasic (Msg.vote addr acct2 pid opt) with _ | e
    · simp [runVote, hu, ho, ha, hq, hv] at h
      obtain ⟨rfl, rfl, rfl⟩ := h
      constructor
      · intro hpay
        simp [TxBuilder.feePayerEmpty, hpay, TxBuilder.withPayer]
      · intro p hpay
        simp [TxBuilder.feePayerEmpty, hpay, TxBuilder.withPayer]
    · simp [runVote, hu, ho, ha, hq, hv] at h
  · intro bldr a0 b ms acct h
    rcases ha : env.newAccountIDFromStr a0 with e | acct2
    · simp [runUnJail, ha] at h
    rcases hq : env.queryAccountAuth acct2 with e | addr
    · simp [runUnJail, ha, hq] at h
    rcases hv : env.validateBasic (Msg.govUnjail addr acct2) with _ | e
    · simp [runUnJail, ha, hq, hv] at h
      obtain ⟨rfl, rfl, rfl⟩ := h
      constructor
      · intro hpay
        simp [TxBuilder.feePayerEmpty, hpay, TxBuilder.withPayer]
      · intro p hpay
        simp [TxBuilder.feePayerEmpty, hpay, TxBuilder.withPayer]
    · simp [runUnJail, ha, hq, hv] at h

/-- Witness for C6: with no fee payer set, a broadcasting deposit invocation
carries jack as payer; with the fee payer already set to alice, it is left
unchanged. -/
theorem C6_fee_payer_defaulting_witness :
    (⟨some "jack"⟩ : TxBuilder).payer = some "jack" ∧
    bldrAlice.payer = some "alice" :=
  ⟨((C6_fee_payer_defaulting envOk).2.1 bldr0 "jack" "1" "10stake"
      ⟨some "jack"⟩ [Msg.deposit "addr-jack" ⟨"jack"⟩ 1 "10stake"] ⟨"jack"⟩
      rfl).1 rfl,
    ((C6_fee_payer_defaulting envOk).2.1 bldrAlice "jack" "1" "10stake"
      bldrAlice [Msg.deposit "addr-jack" ⟨"jack"⟩ 1 "10stake"] ⟨"jack"⟩
      rfl).2 "alice" rfl⟩

/-- C7 counterexample: the claim says the account-identifier parse error of
each command names the role of the failing account argument (proposer,
depositor, voter, validator).  At the concrete empty account argument, the
vote command reports `depositor account id error` which does not mention
voter, and the unjail command reports the same label which does not mention
validator. -/
theorem C7_role_label_counterexample :
    (runVote envOk bldr0 "" "1" "yes").1 =
      .err "depositor account id error: empty account id" ∧
    strContains "depositor account id error: empty account id" "voter" = false ∧
    (runUnJail envOk bldr0 "").1 =
      .err "depositor account id error: empty account id" ∧
    strContains "depositor account id error: empty account id" "validator" = false :=
  ⟨rfl, by decide, rfl, by decide⟩

/-- C7 amended: every account-identifier parse error is returned
synchronously and wrapped with a contextual label, but only submit-proposal
(proposer) and deposit (depositor) name the role of their own argument; the
vote and unjail commands reuse the label `depositor account id error` for
the voter and validator arguments. -/
theorem C7_account_parse_error_labels (env : Env) (a0 e : String)
    (ha : env.newAccountIDFromStr a0 = .error e) :
    (∀ bldr fl prop amount,
        parseSubmitProposalFlags env fl = .ok prop →
        env.parseCoins prop.Deposit = .ok amount →
        runSubmitProposal env bldr fl a0 =
          (.err (wrap e "proposer account id error"), Trace.empty)) ∧
    (∀ bldr a1 a2 pid amount,
        parseUint64 a1 = some pid →
        env.parseCoins a2 = .ok amount →
        runDeposit env bldr a0 a1 a2 =
          (.err (wrap e "depositor account id error"), Trace.empty)) ∧
    (∀ bldr a1 a2 pid opt,
        parseUint64 a1 = some pid →
        VoteOptionFromString (NormalizeVoteOption a2) = .ok opt →
        runVote env bldr a0 a1 a2 =
          (.err (wrap e "depositor account id error"), Trace.empty)) ∧
    (∀ bldr,
        runUnJail env bldr a0 =
          (.err (wrap e "depositor account id error"), Trace.empty)) := by
  refine ⟨?_, ?_, ?_, ?_⟩
  · intro bldr fl prop amount hp hc
    simp [runSubmitProposal, hp, hc, ha]
  · intro bldr a1 a2 pid amount hu hc
    simp [runDeposit, hu, hc, ha]
  · intro bldr a1 a2 pid opt hu ho
    simp [runVote, hu, ho, ha]
  · intro bldr
    simp [runUnJail, ha]

/-- Witness for the amended C7 at the empty account string, whose parse
fails in `envOk`: deposit and unjail produce the same depositor label. -/
theorem C7_account_parse_error_labels_witness :
    runDeposit envOk bldr0 "" "1" "10stake" =
      (.err "depositor account id error: empty account id", Trace.empty) ∧
    runUnJail envOk bldr0 "" =
      (.err "depositor account id error: empty account id", Trace.empty) :=
  ⟨(C7_account_parse_error_labels envOk "" "empty account id" rfl).2.1 bldr0
      "1" "10stake" 1 "10stake" (by decide) rfl,
    (C7_account_parse_error_labels envOk "" "empty account id" rfl).2.2.2 bldr0⟩

/-- C8: the governance transaction group exposes exactly the four
subcommands deposit, vote, unjail and submit-proposal, whatever extra
proposal child commands are mounted below submit-proposal, with the fixed
arities 3, 3, 1 and 1; and each command rejects any other argument count
with the cobra arity error before its run function produces any effect. -/
theorem C8_command_surface :
    (∀ pcmds, (getTxCmd pcmds).subcommands.map (fun c => (c.use, c.exactArgs)) =
      [("deposit [depositor] [proposal-id] [deposit]", 3),
       ("vote [voter-account] [proposal-id] [option]", 3),
       ("unjail [validator-account]", 1),
       ("submit-proposal [proposer]", 1)]) ∧
    (∀ env bldr fl args, args.length ≠ 1 →
        execSubmitProposal env bldr fl args =
          (.err (exactArgsErr 1 args.length), Trace.empty)) ∧
    (∀ env bldr args, args.length ≠ 3 →
        execDeposit env bldr args =
          (.err (exactArgsErr 3 args.length), Trace.empty)) ∧
    (∀ env bldr args, args.length ≠ 3 →
        execVote env bldr args =
          (.err (exactArgsErr 3 args.length), Trace.empty)) ∧
    (∀ env bldr args, args.length ≠ 1 →
        execUnJail env bldr args =
          (.err (exactArgsErr 1 args.length), Trace.empty)) := by
  refine ⟨fun pcmds => rfl, ?_, ?_, ?_, ?_⟩
  · intro env bldr fl args h
    rcases args with _ | ⟨a, _ | ⟨b, rest⟩⟩
    · rfl
    · exact absurd rfl h
    · rfl
  · intro env bldr args h
    rcases args with _ | ⟨a, _ | ⟨b, _ | ⟨c, _ | ⟨d, rest⟩⟩⟩⟩
    · rfl
    · rfl
    · rfl
    · exact absurd rfl h
    · rfl
  · intro env bldr args h
    rcases args with _ | ⟨a, _ | ⟨b, _ | ⟨c, _ | ⟨d, rest⟩⟩⟩⟩
    · rfl
    · rfl
    · rfl
    · exact absurd rfl h
    · rfl
  · intro env bldr args h
    rcases args with _ | ⟨a, _ | ⟨b, rest⟩⟩
    · rfl
    · exact absurd rfl h
    · rfl

/-- Witness for C8: the deposit command called with no arguments fails with
the cobra arity error and an empty trace, and the subcommand table is the
four fixed entries. -/
theorem C8_command_surface_witness :
    execDeposit envOk bldr0 [] = (.err (exactArgsErr 3 0), Trace.empty) ∧
    (getTxCmd []).subcommands.map (fun c => (c.use, c.exactArgs)) =
      [("deposit [depositor] [proposal-id] [deposit]", 3),
       ("vote [voter-account] [proposal-id] [option]", 3),
       ("unjail [validator-account]", 1),
       ("submit-proposal [proposer]", 1)] :=
  ⟨C8_command_surface.2.2.1 envOk bldr0 [] (by decide),
    C8_command_surface.1 []⟩

/-- C9: whenever fee-payer defaulting triggers (no payer set and the command
reaches broadcast), every command records the raw first command-line
argument as payer, so any string differing from that argument, in
particular the resolved chain address when it differs, is not the payer. -/
theorem C9_payer_is_raw_argument (env : Env) :
    (∀ bldr fl a0 b ms acct, bldr.payer = none →
        (runSubmitProposal env bldr fl a0).1 = .broadcast b ms acct →
        b.payer = some a0 ∧ ∀ addr, addr ≠ a0 → b.payer ≠ some addr) ∧
    (∀ bldr a0 a1 a2 b ms acct, bldr.payer = none →
        (runDeposit env bldr a0 a1 a2).1 = .broadcast b ms acct →
        b.payer = some a0 ∧ ∀ addr, addr ≠ a0 → b.payer ≠ some addr) ∧
    (∀ bldr a0 a1 a2 b ms acct, bldr.payer = none →
        (runVote env bldr a0 a1 a2).1 = .broadcast b ms acct →
        b.payer = some a0 ∧ ∀ addr, addr ≠ a0 → b.payer ≠ some addr) ∧
    (∀ bldr a0 b ms acct, bldr.payer = none →
        (runUnJail env bldr a0).1 = .broadcast b ms acct →
        b.payer = some a0 ∧ ∀ addr, addr ≠ a0 → b.payer ≠ some addr) := by
  refine ⟨?_, ?_, ?_, ?_⟩
  · intro bldr fl a0 b ms acct hpay h
    rcases hp : parseSubmitProposalFlags env fl with e | prop
    · simp [runSubmitProposal, hp] at h
    rcases hc : env.parseCoins prop.Deposit with e | amount
    · simp [runSubmitProposal, hp, hc] at h
    rcases ha : env.newAccountIDFromStr a0 with e | acct2
    · simp [runSubmitProposal, hp, hc, ha] at h
    rcases hq : env.queryAccountAuth acct2 with e | addr
    · simp [runSubmitProposal, hp, hc, ha, hq] at h
    rcases hv : env.validateBasic (Msg.submitProposal addr
        ⟨prop.Title, prop.Description, prop.TypeTag⟩ amount acct2) with _ | e
    · simp [runSubmitProposal, hp, hc, ha, hq, hv] at h
      obtain ⟨rfl, rfl, rfl⟩ := h
      refine ⟨?_, ?_⟩
      · simp [TxBuilder.feePayerEmpty, hpay, TxBuilder.withPayer]
      · intro addr2 hne
        simp [TxBuilder.feePayerEmpty, hpay, TxBuilder.withPayer]
        exact fun hc2 => hne hc2.symm
    · simp [runSubmitProposal, hp, hc, ha, hq, hv] at h
  · intro bldr a0 a1 a2 b ms acct hpay h
    rcases hu : parseUint64 a1 with _ | pid
    · simp [runDeposit, hu] at h
    rcases hc : env.parseCoins a2 with e | amount
    · simp [runDeposit, hu, hc] at h
    rcases ha : env.newAccountIDFromStr a0 with e | acct2
    · simp [runDeposit, hu, hc, ha] at h
    rcases hq : env.queryAccountAuth acct2 with e | addr
    · simp [runDeposit, hu, hc, ha, hq] at h
    rcases hv : env.validateBasic (Msg.deposit addr acct2 pid amount) with _ | e
    · simp [runDeposit, hu, hc, ha, hq, hv] at h
      obtain ⟨rfl, rfl, rfl⟩ := h
      refine ⟨?_, ?_⟩
      · simp [TxBuilder.feePayerEmpty, hpay, TxBuilder.withPayer]
      · intro addr2 hne
        simp [TxBuilder.feePayerEmpty, hpay, TxBuilder.withPayer]
        exact fun hc2 => hne hc2.symm
    · simp [runDeposit, hu, hc, ha, hq, hv] at h
  · intro bldr a0 a1 a2 b ms acct hpay h
    rcases hu : parseUint64 a1 with _ | pid
    · simp [runVote, hu] at h
    rcases ho : VoteOptionFromString (NormalizeVoteOption a2) with e | opt
    · simp [runVote, hu, ho] at h
    rcases ha : env.newAccountIDFromStr a0 with e | acct2
    · simp [runVote, hu, ho, ha] at h
    rcases hq : env.queryAccountAuth acct2 with e | addr
    · simp [runVote, hu, ho, ha, hq] at h
    rcases hv : env.validateBasic (Msg.vote addr acct2 pid opt) with _ | e
    · simp [runVote, hu, ho, ha, hq, hv] at h
      obtain ⟨rfl, rfl, rfl⟩ := h
      refine ⟨?_, ?_⟩
      · simp [TxBuilder.feePayerEmpty, hpay, TxBuilder.withPayer]
      · intro addr2 hne
        simp [TxBuilder.feePayerEmpty, hpay, TxBuilder.withPayer]
        exact fun hc2 => hne hc2.symm
    · simp [runVote, hu, ho, ha, hq, hv] at h
  · intro bldr a0 b ms acct hpay h
    rcases ha : env.newAccountIDFromStr a0 with e | acct2
    · simp [runUnJail, ha] at h
    rcases hq : env.queryAccountAuth acct2 with e | addr
    · simp [runUnJail, ha, hq] at h
    rcases hv : env.validateBasic (Msg.govUnjail addr acct2) with _ | e
    · simp [runUnJail, ha, hq, hv] at h
      obtain ⟨rfl, rfl, rfl⟩ := h
      refine ⟨?_, ?_⟩
      · simp [TxBuilder.feePayerEmpty, hpay, TxBuilder.withPayer]
      · intro addr2 hne
        simp [TxBuilder.feePayerEmpty, hpay, TxBuilder.withPayer]
        exact fun hc2 => hne hc2.symm
    · simp [runUnJail, ha, hq, hv] at h

/-- Witness for C9: a broadcasting vote invocation records the raw argument
jack as payer even though the query resolved jack to the distinct address
addr-jack. -/
theorem C9_payer_is_raw_argument_witness :
    (⟨some "jack"⟩ : TxBuilder).payer = some "jack" ∧
    (⟨some "jack"⟩ : TxBuilder).payer ≠ some "addr-jack" :=
  ⟨((C9_payer_is_raw_argument envOk).2.2.1 bldr0 "jack" "1" "yes"
      ⟨some "jack"⟩ [Msg.vote "addr-jack" ⟨"jack"⟩ 1 .yes] ⟨"jack"⟩
      rfl rfl).1,
    ((C9_payer_is_raw_argument envOk).2.2.1 bldr0 "jack" "1" "yes"
      ⟨some "jack"⟩ [Msg.vote "addr-jack" ⟨"jack"⟩ 1 .yes] ⟨"jack"⟩
      rfl rfl).2 "addr-jack" (by decide)⟩

/-- C10: the proposal-id parser accepts every nonempty all-digit decimal
string whose value fits in 64 bits, including 0 and 18446744073709551615,
and the deposit and vote commands construct their message for any parsed
value, with no lower bound, non-zero requirement or existence check at this
layer. -/
theorem C10_proposal_id_full_uint64_range (env : Env) :
    (∀ s : String, s.toList ≠ [] → s.toList.all Char.isDigit = true →
        digitsToNat s.toList < 18446744073709551616 →
        parseUint64 s = some (digitsToNat s.toList)) ∧
    parseUint64 "0" = some 0 ∧
    parseUint64 "18446744073709551615" = some 18446744073709551615 ∧
    (∀ bldr a0 a1 a2 pid amount acct addr,
        parseUint64 a1 = some pid →
        env.parseCoins a2 = .ok amount →
        env.newAccountIDFromStr a0 = .ok acct →
        env.queryAccountAuth acct = .ok addr →
        (runDeposit env bldr a0 a1 a2).2.msgs =
          [Msg.deposit addr acct pid amount]) ∧
    (∀ bldr a0 a1 a2 pid opt acct addr,
        parseUint64 a1 = some pid →
        VoteOptionFromString (NormalizeVoteOption a2) = .ok opt →
        env.newAccountIDFromStr a0 = .ok acct →
        env.queryAccountAuth acct = .ok addr →
        (runVote env bldr a0 a1 a2).2.msgs =
          [Msg.vote addr acct pid opt]) := by
  refine ⟨?_, by decide, by decide, ?_, ?_⟩
  · intro s h1 h2 h3
    simp [parseUint64, List.isEmpty_iff]
    refine ⟨h1, ?_, h3⟩
    intro x hx
    simpa using List.all_eq_true.mp h2 x hx
  · intro bldr a0 a1 a2 pid amount acct addr hu hc ha hq
    rcases hv : env.validateBasic (Msg.deposit addr acct pid amount) with _ | e <;>
      simp [runDeposit, hu, hc, ha, hq, hv]
  · intro bldr a0 a1 a2 pid opt acct addr hu ho ha hq
    rcases hv : env.validateBasic (Msg.vote addr acct pid opt) with _ | e <;>
      simp [runVote, hu, ho, ha, hq, hv]

/-- Witness for C10: the proposal-id zero and the maximal 64-bit proposal-id
both reach message construction in deposit and vote. -/
theorem C10_proposal_id_full_uint64_range_witness :
    parseUint64 "42" = some (digitsToNat "42".toList) ∧
    (runDeposit envOk bldr0 "jack" "0" "10stake").2.msgs =
      [Msg.deposit "addr-jack" ⟨"jack"⟩ 0 "10stake"] ∧
    (runVote envOk bldr0 "jack" "18446744073709551615" "yes").2.msgs =
      [Msg.vote "addr-jack" ⟨"jack"⟩ 18446744073709551615 .yes] :=
  ⟨(C10_proposal_id_full_uint64_range envOk).1 "42" (by decide) (by decide)
      (by decide),
    (C10_proposal_id_full_uint64_range envOk).2.2.2.1 bldr0 "jack" "0"
      "10stake" 0 "10stake" ⟨"jack"⟩ "addr-jack" (by decide) rfl rfl rfl,
    (C10_proposal_id_full_uint64_range envOk).2.2.2.2 bldr0 "jack"
      "18446744073709551615" "yes" 18446744073709551615 .yes ⟨"jack"⟩
      "addr-jack" (by decide) rfl rfl rfl⟩

end KratosGovCli
